import Mathlib

/-!
Verification of the founder-path single-page client: a shallow embedding of
the onboarding wizard (src/frontend/src/pages/Onboarding.jsx), the session
controller (src/frontend/src/context/AuthContext.jsx), the shared API client
(src/frontend/src/services/api.js), the report view's milestone toggle
(src/frontend/src/pages/Results.jsx) and the route guard (App.jsx).

Stateful React components are embedded as pure functions from their inputs
(current state plus the outcomes of the backend calls they issue) to an
explicit trace of observable effects together with the successor state.
-/

namespace FounderPath

/-! ## Draft Profile data model (Onboarding.jsx, `formData` initial state) -/

/-- The Draft Profile held by the onboarding wizard (`formData`).
Numeric fields are `Int` because the JavaScript handlers store whatever
`parseInt` produces, which can be any integer. -/
structure FormData where
  education : String
  current_role : String
  years_experience : Int
  tech_skills : List String
  domain_skills : List String
  soft_skills : List String
  previous_projects : String
  excited_domains : List String
  hours_per_week : Int
  runway_months : Option Int
  location : String
  risk_appetite : String
  target_roles : List String
  existing_portfolio : String
  github_url : String
  network_strength : String
  learning_mode : String
  deriving Repr, DecidableEq

/-- The initial `formData` passed to `useState` in Onboarding.jsx. -/
def initialFormData : FormData :=
  { education := ""
    current_role := ""
    years_experience := 0
    tech_skills := []
    domain_skills := []
    soft_skills := []
    previous_projects := ""
    excited_domains := []
    hours_per_week := 10
    runway_months := none
    location := ""
    risk_appetite := "medium"
    target_roles := []
    existing_portfolio := ""
    github_url := ""
    network_strength := "moderate"
    learning_mode := "build-first" }

/-! ## Selection toggles (Onboarding.jsx, `toggleArrayItem`) -/

/-- `toggleArrayItem` from Onboarding.jsx: if the item is already in the
array, remove every occurrence (`arr.filter(i => i !== item)`); otherwise
append it (`[...arr, item]`). -/
def toggleArrayItem (arr : List String) (item : String) : List String :=
  if arr.contains item then arr.filter (fun i => i != item)
  else arr ++ [item]

/-- The five selectable fields the wizard toggles via `toggleArrayItem`. -/
inductive SelectField where
  | techSkills
  | domainSkills
  | softSkills
  | excitedDomains
  | targetRoles
  deriving Repr, DecidableEq

/-- Read one of the five selectable list fields of the Draft Profile. -/
def getSelect : SelectField → FormData → List String
  | .techSkills, fd => fd.tech_skills
  | .domainSkills, fd => fd.domain_skills
  | .softSkills, fd => fd.soft_skills
  | .excitedDomains, fd => fd.excited_domains
  | .targetRoles, fd => fd.target_roles

/-- Replace one of the five selectable list fields of the Draft Profile,
as `setFormData(prev => ({ ...prev, [field]: ... }))` does. -/
def setSelect : SelectField → List String → FormData → FormData
  | .techSkills, l, fd => { fd with tech_skills := l }
  | .domainSkills, l, fd => { fd with domain_skills := l }
  | .softSkills, l, fd => { fd with soft_skills := l }
  | .excitedDomains, l, fd => { fd with excited_domains := l }
  | .targetRoles, l, fd => { fd with target_roles := l }

/-- `toggleArrayItem(field, item)` acting on the whole Draft Profile. -/
def toggleField (f : SelectField) (item : String) (fd : FormData) : FormData :=
  setSelect f (toggleArrayItem (getSelect f fd) item) fd

/-- A sequence of toggle events applied from left to right. -/
def applyToggles (ops : List (SelectField × String)) (fd : FormData) : FormData :=
  ops.foldl (fun acc op => toggleField op.1 op.2 acc) fd

/-! ## Per-step advancement gates (Onboarding.jsx, `canProceed`) -/

/-- `canProceed` from Onboarding.jsx, with JavaScript truthiness made
explicit: `formData.education && formData.current_role` is truthy exactly
when both strings are non-empty. -/
def canProceed (step : Nat) (fd : FormData) : Bool :=
  match step with
  | 0 => fd.education != "" && fd.current_role != ""
  | 1 => fd.tech_skills.length > 0 || fd.domain_skills.length > 0
  | 2 => fd.excited_domains.length > 0
  | 3 => decide (fd.hours_per_week > 0)
  | 4 => fd.target_roles.length > 0
  | 5 => true
  | _ => false

/-- Gate predicate table transcribed from the specification (§4.2):
Background needs education and current role non-empty; Skills needs a
technical or domain skill; Interests needs an excited domain; Constraints
needs hours-per-week > 0; Goals needs a target role; Preferences is always
satisfied. Kept separate from `canProceed` so the code's gates can be
compared against the spec's. -/
def specGate (step : Nat) (fd : FormData) : Bool :=
  match step with
  | 0 => !(fd.education = "") && !(fd.current_role = "")
  | 1 => !(fd.tech_skills = []) || !(fd.domain_skills = [])
  | 2 => !(fd.excited_domains = [])
  | 3 => decide (0 < fd.hours_per_week)
  | 4 => !(fd.target_roles = [])
  | 5 => true
  | _ => false

/-- The wizard's component state: step index, Draft Profile and the two
busy flags (`currentStep`, `formData`, `isSubmitting`, `isAnalyzing`). -/
structure WizardState where
  currentStep : Nat
  formData : FormData
  isSubmitting : Bool
  isAnalyzing : Bool
  deriving Repr, DecidableEq

/-- The "Next" button (rendered on steps 0 to 4) has
`disabled={!canProceed()}`, so it is enabled exactly when `canProceed`. -/
def nextEnabled (st : WizardState) : Bool :=
  canProceed st.currentStep st.formData

/-- The submit button (rendered on the last step) has
`disabled={!canProceed() || isSubmitting}`. -/
def submitEnabled (st : WizardState) : Bool :=
  canProceed st.currentStep st.formData && !st.isSubmitting

/-! ## Two-phase submission (Onboarding.jsx, `handleSubmit`; api.js) -/

/-- The error shape the catch blocks inspect:
`error.response?.data?.detail` collapsed to an optional detail string. -/
structure ApiError where
  detail : Option String
  deriving Repr, DecidableEq

/-- `error.response?.data?.detail || 'Something went wrong'` — JavaScript
`||` falls back on the empty string as well as on a missing detail. -/
def errMsg (e : ApiError) : String :=
  match e.detail with
  | some d => if d = "" then "Something went wrong" else d
  | none => "Something went wrong"

/-- Response of `POST /api/profile` (save profile): `{ id, ... }`. -/
structure SaveResp where
  id : String
  deriving Repr, DecidableEq

/-- Response of `POST /api/analyze` (run analysis): `{ report_id, ... }`. -/
structure AnalyzeResp where
  report_id : String
  deriving Repr, DecidableEq

/-- Request body of `POST /api/analyze`. -/
structure AnalyzePayload where
  profile_id : String
  deriving Repr, DecidableEq

/-- Observable effects of the wizard's submission flow. -/
inductive Effect where
  | saveProfileCall (payload : FormData)
  | analysisCall (payload : AnalyzePayload)
  | toastSuccess (msg : String)
  | toastError (msg : String)
  | navigateTo (path : String)
  deriving Repr, DecidableEq

/-- `analysisApi.runAnalysis` from api.js:
`(profileId) => api.post('/analyze', { profile_id: profileId })`. -/
def runAnalysis (profileId : String) : Effect :=
  .analysisCall { profile_id := profileId }

/-- `handleSubmit` from Onboarding.jsx as a function of the outcomes of the
two backend calls it awaits. It first awaits `profileApi.saveProfile`
(emitting the call); on failure the catch block toasts the error and the
finally block clears both busy flags. On success it toasts, sets
`isAnalyzing`, awaits `analysisApi.runAnalysis(profileResponse.data.id)`,
and on analysis success toasts and navigates to the report view. The step
index and the Draft Profile are never written. -/
def handleSubmit (st : WizardState) (saveRes : Except ApiError SaveResp)
    (anaRes : Except ApiError AnalyzeResp) : List Effect × WizardState :=
  match saveRes with
  | .error e =>
      ([.saveProfileCall st.formData, .toastError (errMsg e)],
       { st with isSubmitting := false, isAnalyzing := false })
  | .ok p =>
      match anaRes with
      | .error e =>
          ([.saveProfileCall st.formData, .toastSuccess "Profile saved!",
            runAnalysis p.id, .toastError (errMsg e)],
           { st with isSubmitting := false, isAnalyzing := false })
      | .ok r =>
          ([.saveProfileCall st.formData, .toastSuccess "Profile saved!",
            runAnalysis p.id, .toastSuccess "Analysis complete!",
            .navigateTo ("/results/" ++ r.report_id)],
           { st with isSubmitting := false, isAnalyzing := false })

/-! ## Years-of-experience input (Onboarding.jsx, step 0 `onChange`) -/

/-- Interpret a list of decimal digit characters, `none` when empty
(JavaScript `parseInt` returns `NaN` when no digit is consumed). -/
def digitsToNat? (ds : List Char) : Option Nat :=
  if ds.isEmpty then none
  else some (ds.foldl (fun a c => a * 10 + (c.toNat - '0'.toNat)) 0)

/-- JavaScript `parseInt(s)` restricted to base-10 inputs, which is all a
number input produces: skip leading whitespace, read an optional sign, then
the longest run of leading decimal digits; `none` models `NaN`. -/
def parseIntJS (s : String) : Option Int :=
  match s.toList.dropWhile Char.isWhitespace with
  | '-' :: rest => (digitsToNat? (rest.takeWhile Char.isDigit)).map (fun n => -(n : Int))
  | '+' :: rest => (digitsToNat? (rest.takeWhile Char.isDigit)).map (fun n => (n : Int))
  | cs => (digitsToNat? (cs.takeWhile Char.isDigit)).map (fun n => (n : Int))

/-- The step-0 handler `parseInt(e.target.value) || 0`: `NaN` and `0` are
falsy, every other integer is kept as is — including negative ones. -/
def yearsExperienceOnChange (v : String) : Int :=
  match parseIntJS v with
  | none => 0
  | some n => if n = 0 then 0 else n

/-- `updateField('years_experience', parseInt(e.target.value) || 0)`. -/
def updateYearsExperience (fd : FormData) (v : String) : FormData :=
  { fd with years_experience := yearsExperienceOnChange v }

/-! ## Session controller (AuthContext.jsx) -/

/-- A resolved identity as returned by the auth endpoints. -/
structure Identity where
  uid : String
  name : String
  email : String
  picture : Option String
  deriving Repr, DecidableEq

/-- The AuthProvider component state: `useState(null)` for the user and
`useState(true)` for the loading flag. -/
structure AuthState where
  user : Option Identity
  loading : Bool
  deriving Repr, DecidableEq

/-- The AuthProvider's initial state on mount: no user, loading. -/
def initialAuthState : AuthState := { user := none, loading := true }

/-- Observable effects of the session bootstrap. -/
inductive AuthEffect where
  | exchangeCall (session_id : String)
  | meCall
  | replaceUrl (path : String)
  | navigateTo (path : String)
  deriving Repr, DecidableEq

/-- Does the second character list start with the first? -/
def listStartsWith : List Char → List Char → Bool
  | [], _ => true
  | _ :: _, [] => false
  | p :: ps, c :: cs => p = c && listStartsWith ps cs

/-- Does the pattern occur as a contiguous run inside the list? -/
def containsSub (pat : List Char) : List Char → Bool
  | [] => listStartsWith pat []
  | c :: cs => listStartsWith pat (c :: cs) || containsSub pat cs

/-- JavaScript `s.includes(pat)`: the pattern occurs as a contiguous
substring of `s`. -/
def strContains (s pat : String) : Bool :=
  containsSub pat.toList s.toList

/-- Split a character list on every occurrence of a separator character. -/
def splitOnChar (sep : Char) : List Char → List (List Char)
  | [] => [[]]
  | c :: cs =>
    match splitOnChar sep cs with
    | [] => if c = sep then [[], []] else [[c]]
    | r :: rs => if c = sep then [] :: r :: rs else (c :: r) :: rs

/-- `new URLSearchParams(str)`: split on `&`, then each pair on the first
`=`, keeping any further `=` inside the value; a pair with no `=` maps to
the empty value. Percent-decoding is not modelled; session tokens contain
no escapes. -/
def parseHashParams (s : String) : List (String × String) :=
  (splitOnChar '&' s.toList).map fun kv =>
    match splitOnChar '=' kv with
    | [] => ("", "")
    | k :: rest => (String.mk k, String.mk (List.intercalate ['='] rest))

/-- `URLSearchParams.get(key)`: the first matching pair's value. -/
def getHashParam (s : String) (key : String) : Option String :=
  ((parseHashParams s).find? (fun p => p.1 == key)).map (fun p => p.2)

/-- `checkSession` from AuthContext.jsx: `GET /auth/me`; on success store
the identity, on failure clear it; either way `loading` ends false. -/
def checkSession (meRes : Except ApiError Identity) : List AuthEffect × AuthState :=
  match meRes with
  | .ok u => ([.meCall], { user := some u, loading := false })
  | .error _ => ([.meCall], { user := none, loading := false })

/-- `processSessionId` from AuthContext.jsx: `POST /auth/session` with the
token; on success store the identity, strip the fragment from the URL
(`history.replaceState(null, '', window.location.pathname)`) and navigate
to `/dashboard`; on failure clear the user and navigate to `/`. -/
def processSessionId (sid : String) (pathname : String)
    (exchangeRes : Except ApiError Identity) : List AuthEffect × AuthState :=
  match exchangeRes with
  | .ok u =>
      ([.exchangeCall sid, .replaceUrl pathname, .navigateTo "/dashboard"],
       { user := some u, loading := false })
  | .error _ =>
      ([.exchangeCall sid, .navigateTo "/"],
       { user := none, loading := false })

/-- The mount effect `handleAuth` from AuthContext.jsx: if the URL hash
contains `session_id=` and `URLSearchParams` yields a truthy token, run
`processSessionId` and return; otherwise fall through to `checkSession`. -/
def handleAuth (hash pathname : String) (exchangeRes meRes : Except ApiError Identity) :
    List AuthEffect × AuthState :=
  if strContains hash "session_id=" then
    match getHashParam (String.mk (hash.toList.drop 1)) "session_id" with
    | some sid => if sid != "" then processSessionId sid pathname exchangeRes
                  else checkSession meRes
    | none => checkSession meRes
  else checkSession meRes

/-! ## Shared API client 401 rule (api.js, response interceptor) -/

/-- The response interceptor's error branch: on `error.response?.status ===
401`, when the current pathname is not `/`, set `window.location.href =
'/'` (returned as the redirect target); otherwise do nothing. -/
def responseErrorInterceptor (status : Option Nat) (pathname : String) : Option String :=
  if status == some 401 then
    if pathname != "/" then some "/" else none
  else none

/-- Assigning `window.location.href` performs a hard navigation: the page
reloads and all in-memory component state is rebuilt from scratch, so the
session controller restarts from `initialAuthState` (no identity). -/
def followRedirect (redirect : Option String) (st : AuthState) : AuthState :=
  match redirect with
  | some _ => initialAuthState
  | none => st

/-! ## Route guard (App.jsx, `ProtectedRoute` and the route table) -/

/-- What a route renders: the shared loading indicator, a `<Navigate>`
redirect, or the wrapped page content. -/
inductive RenderResult where
  | loadingView
  | redirect (dest : String)
  | content
  deriving Repr, DecidableEq

/-- `ProtectedRoute` from App.jsx: while `loading` render the loading
indicator; then unauthenticated users get `<Navigate to="/" replace/>`;
otherwise render the children. -/
def protectedRoute (loading : Bool) (user : Option Identity) : RenderResult :=
  if loading then .loadingView
  else
    match user with
    | none => .redirect "/"
    | some _ => .content

/-- One entry of the App.jsx route table: a path and whether its element is
wrapped in `ProtectedRoute`. -/
structure RouteDef where
  path : String
  isGuarded : Bool
  deriving Repr, DecidableEq

/-- The App.jsx route table: `/` renders `Landing` unguarded; the
onboarding, results and dashboard routes are all wrapped in the one shared
`ProtectedRoute`. -/
def appRoutes : List RouteDef :=
  [ { path := "/", isGuarded := false },
    { path := "/onboarding", isGuarded := true },
    { path := "/results/:reportId", isGuarded := true },
    { path := "/dashboard", isGuarded := true } ]

/-- Render one route: guarded routes go through `protectedRoute`, the
public route renders its content directly. -/
def renderRoute (r : RouteDef) (loading : Bool) (user : Option Identity) : RenderResult :=
  if r.isGuarded then protectedRoute loading user else .content

/-! ## Milestone toggle (Results.jsx, `toggleMilestone`) -/

/-- Observable effects of the report view's milestone toggle. -/
inductive ResultsEffect where
  | setLocalMilestones (ms : List String)
  | updateMilestonesCall (reportId : String) (milestones_completed : List String)
  | toastError (msg : String)
  deriving Repr, DecidableEq

/-- `reportsApi.updateMilestones` from api.js:
`PATCH /reports/{id}/milestones` with `{ milestones_completed }`. -/
def updateMilestones (id : String) (milestones : List String) : ResultsEffect :=
  .updateMilestonesCall id milestones

/-- The `const newMilestones` computation in Results.jsx's
`toggleMilestone`: `completed.includes(m) ? completed.filter(x => x !== m)
: [...completed, m]`. -/
def newMilestonesOf (completed : List String) (m : String) : List String :=
  if completed.contains m then completed.filter (fun x => x != m)
  else completed ++ [m]

/-- `toggleMilestone` from Results.jsx: compute the flipped list, update
the local state first, then await the backend call; its failure only
toasts — the local state is not rolled back. -/
def toggleMilestone (reportId : String) (completed : List String) (m : String)
    (updateRes : Except ApiError Unit) : List ResultsEffect × List String :=
  let newMilestones := newMilestonesOf completed m
  match updateRes with
  | .ok _ =>
      ([.setLocalMilestones newMilestones, updateMilestones reportId newMilestones],
       newMilestones)
  | .error _ =>
      ([.setLocalMilestones newMilestones, updateMilestones reportId newMilestones,
        .toastError "Failed to update milestone"],
       newMilestones)

/-- Recognizer for token-exchange calls in a bootstrap trace. -/
def isExchangeCall : AuthEffect → Bool
  | .exchangeCall _ => true
  | _ => false

/-- A concrete resolved identity used to instantiate theorems. -/
def sampleUser : Identity :=
  { uid := "u1", name := "Ada", email := "ada@example.com", picture := none }

/-! # Theorems -/

theorem toggleArrayItem_mem_self (arr : List String) (item : String) :
    item ∈ toggleArrayItem arr item ↔ item ∉ arr := by
  unfold toggleArrayItem
  by_cases h : item ∈ arr
  · simp [List.elem_iff.mpr h, h, List.mem_filter]
  · simp [h, fun hc => h (List.elem_iff.mp hc)]

theorem toggleArrayItem_mem_toggle (arr : List String) (item y : String) :
    y ∈ toggleArrayItem (toggleArrayItem arr item) item ↔ y ∈ arr := by
  unfold toggleArrayItem
  by_cases h : item ∈ arr
  · have hc : arr.contains item = true := List.elem_iff.mpr h
    by_cases hy : y = item <;>
      simp [hc, h, hy, List.mem_filter, List.mem_append]
  · have hc : arr.contains item = false := by
      simp only [Bool.eq_false_iff]
      intro hcc
      exact h (List.elem_iff.mp hcc)
    by_cases hy : y = item <;>
      simp [hc, h, hy, List.mem_filter, List.mem_append]

theorem toggleArrayItem_nodup (arr : List String) (item : String)
    (h : arr.Nodup) : (toggleArrayItem arr item).Nodup := by
  unfold toggleArrayItem
  by_cases hm : item ∈ arr
  · simp only [List.elem_iff.mpr hm, if_true]
    exact h.filter _
  · have hc : arr.contains item = false := by
      simp only [Bool.eq_false_iff]
      intro hcc
      exact hm (List.elem_iff.mp hcc)
    simp only [hc, Bool.false_eq_true, if_false]
    simp [List.nodup_append, h, hm]

theorem getSelect_toggleField_self (f : SelectField) (item : String) (fd : FormData) :
    getSelect f (toggleField f item fd) = toggleArrayItem (getSelect f fd) item := by
  cases f <;> rfl

theorem getSelect_setSelect (f g : SelectField) (l : List String) (fd : FormData) :
    getSelect g (setSelect f l fd) = if g = f then l else getSelect g fd := by
  cases f <;> cases g <;> rfl

theorem canProceed_eq_specGate (step : Nat) (fd : FormData) :
    canProceed step fd = specGate step fd := by
  unfold canProceed specGate
  match step with
  | 0 =>
    by_cases h1 : fd.education = "" <;> by_cases h2 : fd.current_role = "" <;>
      simp [h1, h2]
  | 1 =>
    cases fd.tech_skills <;> cases fd.domain_skills <;> simp
  | 2 => cases fd.excited_domains <;> simp
  | 3 => rfl
  | 4 => cases fd.target_roles <;> simp
  | 5 => rfl
  | (n + 6) => rfl

/-- Claim C6: toggling any item of any selectable field twice returns that
field to its prior selection state — membership is restored for every
label — and a single toggle flips the item's membership: an unselected
item is added, a selected one is removed. -/
theorem toggle_twice_restores_selection (fd : FormData) (f : SelectField) (item y : String) :
    (y ∈ getSelect f (toggleField f item (toggleField f item fd)) ↔ y ∈ getSelect f fd) ∧
    (item ∈ getSelect f (toggleField f item fd) ↔ item ∉ getSelect f fd) := by
  constructor
  · rw [getSelect_toggleField_self, getSelect_toggleField_self]
    exact toggleArrayItem_mem_toggle _ item y
  · rw [getSelect_toggleField_self]
    exact toggleArrayItem_mem_self _ item

theorem toggle_twice_restores_selection_witness :
    ("Python" ∈ getSelect .techSkills
        (toggleField .techSkills "Python" (toggleField .techSkills "Python" initialFormData)) ↔
      "Python" ∈ getSelect .techSkills initialFormData) ∧
    ("Python" ∈ getSelect .techSkills (toggleField .techSkills "Python" initialFormData) ↔
      "Python" ∉ getSelect .techSkills initialFormData) :=
  toggle_twice_restores_selection initialFormData .techSkills "Python" "Python"

theorem toggleField_preserves_nodup (f : SelectField) (item : String) (fd : FormData)
    (h : ∀ g, (getSelect g fd).Nodup) :
    ∀ g, (getSelect g (toggleField f item fd)).Nodup := by
  intro g
  unfold toggleField
  rw [getSelect_setSelect]
  by_cases hg : g = f
  · simp only [hg, if_true]
    exact toggleArrayItem_nodup _ item (h f)
  · simp only [hg, if_false]
    exact h g

/-- Claim C9: starting from the wizard's initial empty Draft Profile, every
sequence of toggle operations leaves every selectable field free of
duplicate labels. -/
theorem toggles_keep_fields_nodup (ops : List (SelectField × String)) (f : SelectField) :
    (getSelect f (applyToggles ops initialFormData)).Nodup := by
  suffices h : ∀ fd, (∀ g, (getSelect g fd).Nodup) →
      ∀ g, (getSelect g (applyToggles ops fd)).Nodup by
    refine h initialFormData ?_ f
    intro g
    cases g <;> simp [getSelect, initialFormData]
  induction ops with
  | nil => intro fd h g; exact h g
  | cons op rest ih =>
    intro fd h g
    exact ih (toggleField op.1 op.2 fd) (toggleField_preserves_nodup op.1 op.2 fd h) g

/-- Claim C1, counterexample: on the last step the gate predicate holds
(Preferences is always satisfied), yet while a submission is in flight
(`isSubmitting`) the submit control is disabled, so "enabled if and only if
the gate holds" fails as stated. -/
theorem submit_disabled_while_submitting :
    specGate 5 initialFormData = true ∧
    submitEnabled { currentStep := 5, formData := initialFormData,
                    isSubmitting := true, isAnalyzing := false } = false := by
  constructor <;> rfl

/-- Claim C1, amended: on steps 0 to 4 the "Next" control is enabled
exactly when the current step's gate predicate holds on the Draft Profile;
on the last step the submit control is enabled exactly when the gate holds
and no submission is in flight. -/
theorem controls_enabled_iff_gate (st : WizardState) :
    (st.currentStep < 5 → nextEnabled st = specGate st.currentStep st.formData) ∧
    (st.currentStep = 5 →
      submitEnabled st = (specGate 5 st.formData && !st.isSubmitting)) := by
  constructor
  · intro _
    exact canProceed_eq_specGate st.currentStep st.formData
  · intro h5
    unfold submitEnabled
    rw [canProceed_eq_specGate, h5]

theorem controls_enabled_iff_gate_witness :
    nextEnabled { currentStep := 0, formData := initialFormData,
                  isSubmitting := false, isAnalyzing := false }
      = specGate 0 initialFormData ∧
    submitEnabled { currentStep := 5, formData := initialFormData,
                    isSubmitting := false, isAnalyzing := false }
      = (specGate 5 initialFormData && !false) := by
  constructor
  · exact (controls_enabled_iff_gate
      { currentStep := 0, formData := initialFormData,
        isSubmitting := false, isAnalyzing := false }).1 (by decide)
  · exact (controls_enabled_iff_gate
      { currentStep := 5, formData := initialFormData,
        isSubmitting := false, isAnalyzing := false }).2 rfl

/-- Claim C2: if the save-profile call fails, the analysis call is never
issued, the wizard stays on its current step with its Draft Profile
untouched, and an error toast is emitted; moreover, in every execution an
analysis call occurs only when the save call resolved successfully, and
then only with the saved profile's id. -/
theorem save_failure_blocks_analysis (st : WizardState) (e : ApiError)
    (anaRes : Except ApiError AnalyzeResp) :
    (∀ q, Effect.analysisCall q ∉ (handleSubmit st (.error e) anaRes).1) ∧
    (handleSubmit st (.error e) anaRes).2.currentStep = st.currentStep ∧
    (handleSubmit st (.error e) anaRes).2.formData = st.formData ∧
    Effect.toastError (errMsg e) ∈ (handleSubmit st (.error e) anaRes).1 ∧
    (∀ (saveRes : Except ApiError SaveResp) (ana : Except ApiError AnalyzeResp)
       (q : AnalyzePayload),
       Effect.analysisCall q ∈ (handleSubmit st saveRes ana).1 →
       ∃ r, saveRes = Except.ok r ∧ q = { profile_id := r.id }) := by
  refine ⟨?_, rfl, rfl, ?_, ?_⟩
  · intro q
    simp [handleSubmit]
  · simp [handleSubmit]
  · intro saveRes ana q hq
    match saveRes with
    | .error e' => simp [handleSubmit] at hq
    | .ok r =>
      refine ⟨r, rfl, ?_⟩
      match ana with
      | .error e' =>
        simp [handleSubmit, runAnalysis] at hq
        exact hq
      | .ok a =>
        simp [handleSubmit, runAnalysis] at hq
        exact hq

theorem save_failure_blocks_analysis_witness :
    Effect.analysisCall { profile_id := "p1" } ∉
      (handleSubmit { currentStep := 5, formData := initialFormData,
                      isSubmitting := true, isAnalyzing := false }
        (.error { detail := none }) (.error { detail := none })).1 ∧
    Effect.toastError "Something went wrong" ∈
      (handleSubmit { currentStep := 5, formData := initialFormData,
                      isSubmitting := true, isAnalyzing := false }
        (.error { detail := none }) (.error { detail := none })).1 ∧
    (∃ r, (Except.ok { id := "p1" } : Except ApiError SaveResp) = Except.ok r ∧
      ({ profile_id := "p1" } : AnalyzePayload) = { profile_id := r.id }) := by
  have h := save_failure_blocks_analysis
    { currentStep := 5, formData := initialFormData,
      isSubmitting := true, isAnalyzing := false }
    { detail := none } (.error { detail := none })
  exact ⟨h.1 _, h.2.2.2.1,
    h.2.2.2.2 (.ok { id := "p1" }) (.ok { report_id := "r1" })
      { profile_id := "p1" } (by simp [handleSubmit, runAnalysis])⟩

/-- Claim C5: when the save call succeeds with id `p1` and the analysis
call succeeds with report id `r1`, the analysis call is made with exactly
the payload `{ profile_id := p1 }` (and with no other payload), and the
flow navigates to the report view `/results/r1`. -/
theorem success_path_payload_and_navigation (st : WizardState) (p1 r1 : String) :
    Effect.analysisCall { profile_id := p1 } ∈
      (handleSubmit st (.ok { id := p1 }) (.ok { report_id := r1 })).1 ∧
    (∀ q, Effect.analysisCall q ∈
        (handleSubmit st (.ok { id := p1 }) (.ok { report_id := r1 })).1 →
      q = { profile_id := p1 }) ∧
    Effect.navigateTo ("/results/" ++ r1) ∈
      (handleSubmit st (.ok { id := p1 }) (.ok { report_id := r1 })).1 := by
  refine ⟨?_, ?_, ?_⟩
  · simp [handleSubmit, runAnalysis]
  · intro q hq
    simp [handleSubmit, runAnalysis] at hq
    exact hq
  · simp [handleSubmit, runAnalysis]

theorem success_path_payload_and_navigation_witness :
    Effect.analysisCall { profile_id := "p1" } ∈
      (handleSubmit { currentStep := 5, formData := initialFormData,
                      isSubmitting := true, isAnalyzing := false }
        (.ok { id := "p1" }) (.ok { report_id := "r1" })).1 ∧
    Effect.navigateTo "/results/r1" ∈
      (handleSubmit { currentStep := 5, formData := initialFormData,
                      isSubmitting := true, isAnalyzing := false }
        (.ok { id := "p1" }) (.ok { report_id := "r1" })).1 := by
  have h := success_path_payload_and_navigation
    { currentStep := 5, formData := initialFormData,
      isSubmitting := true, isAnalyzing := false } "p1" "r1"
  exact ⟨h.1, h.2.2⟩

/-- Claim C8: the years-of-experience handler `parseInt(value) || 0` does
not enforce non-negativity — typing `-5` stores the negative integer `-5`
in the Draft Profile, violating the invariant the input's `min="0"`
declares. -/
theorem years_experience_accepts_negative :
    (updateYearsExperience initialFormData "-5").years_experience = -5 ∧
    (updateYearsExperience initialFormData "-5").years_experience < 0 := by
  constructor <;> decide

/-- Claim C10: on a milestone toggle the report view updates its local
completed-milestone list before the backend call is issued; when the call
fails only an error toast is added and the local list keeps the toggled
value, which always differs from the previous (server-side) list. -/
theorem milestone_local_update_survives_failure (rid : String) (c : List String)
    (m : String) (e : ApiError) :
    (toggleMilestone rid c m (.error e)).1 =
      [.setLocalMilestones (newMilestonesOf c m),
       .updateMilestonesCall rid (newMilestonesOf c m),
       .toastError "Failed to update milestone"] ∧
    (toggleMilestone rid c m (.error e)).2 = newMilestonesOf c m ∧
    (m ∈ newMilestonesOf c m ↔ m ∉ c) ∧
    newMilestonesOf c m ≠ c := by
  have hflip : m ∈ newMilestonesOf c m ↔ m ∉ c := toggleArrayItem_mem_self c m
  refine ⟨rfl, rfl, hflip, ?_⟩
  intro hEq
  rw [hEq] at hflip
  by_cases hm : m ∈ c
  · exact (hflip.mp hm) hm
  · exact hm (hflip.mpr hm)

theorem milestone_local_update_survives_failure_witness :
    (toggleMilestone "r1" [] "m1" (.error { detail := none })).1 =
      [.setLocalMilestones ["m1"], .updateMilestonesCall "r1" ["m1"],
       .toastError "Failed to update milestone"] ∧
    (toggleMilestone "r1" [] "m1" (.error { detail := none })).2 = ["m1"] := by
  have h := milestone_local_update_survives_failure "r1" [] "m1" { detail := none }
  exact ⟨h.1, h.2.1⟩

/-- Claim C3: when the first-load URL fragment carries a `session_id`
token, the bootstrap issues the token-exchange call exactly once with that
token and never the session-resolution call; on exchange success it stores
the identity, strips the fragment from the URL and navigates to the
authenticated landing view, on failure it ends with no identity and
navigates to the public entry view. -/
theorem bootstrap_with_fragment_token (h p sid : String)
    (hc : strContains h "session_id=" = true)
    (hg : getHashParam (String.mk (h.toList.drop 1)) "session_id" = some sid)
    (hs : sid ≠ "") :
    (∀ exch meRes : Except ApiError Identity,
       (handleAuth h p exch meRes).1.filter isExchangeCall
         = [AuthEffect.exchangeCall sid] ∧
       AuthEffect.meCall ∉ (handleAuth h p exch meRes).1) ∧
    (∀ (u : Identity) (meRes : Except ApiError Identity),
       (handleAuth h p (.ok u) meRes).2 = { user := some u, loading := false } ∧
       AuthEffect.replaceUrl p ∈ (handleAuth h p (.ok u) meRes).1 ∧
       AuthEffect.navigateTo "/dashboard" ∈ (handleAuth h p (.ok u) meRes).1) ∧
    (∀ (e : ApiError) (meRes : Except ApiError Identity),
       (handleAuth h p (.error e) meRes).2 = { user := none, loading := false } ∧
       AuthEffect.navigateTo "/" ∈ (handleAuth h p (.error e) meRes).1) := by
  have hg2 : getHashParam { data := h.data.tail } "session_id" = some sid := by
    have hdt : h.data.tail = List.drop 1 h.toList := (List.drop_one _).symm
    rw [hdt]
    exact hg
  have hA : ∀ exch meRes : Except ApiError Identity,
      handleAuth h p exch meRes = processSessionId sid p exch := by
    intro exch meRes
    unfold handleAuth
    simp [hc, hg, hg2, hs]
  refine ⟨?_, ?_, ?_⟩
  · intro exch meRes
    rw [hA exch meRes]
    cases exch <;> simp [processSessionId, isExchangeCall]
  · intro u meRes
    rw [hA (.ok u) meRes]
    simp [processSessionId]
  · intro e meRes
    rw [hA (.error e) meRes]
    simp [processSessionId]

theorem bootstrap_with_fragment_token_witness :
    (handleAuth "#session_id=abc123" "/" (.ok sampleUser)
        (.error { detail := none })).1.filter isExchangeCall
      = [AuthEffect.exchangeCall "abc123"] ∧
    (handleAuth "#session_id=abc123" "/" (.ok sampleUser)
        (.error { detail := none })).2
      = { user := some sampleUser, loading := false } ∧
    (handleAuth "#session_id=abc123" "/" (.error { detail := none })
        (.error { detail := none })).2
      = { user := none, loading := false } := by
  have h := bootstrap_with_fragment_token "#session_id=abc123" "/" "abc123"
    (by decide) (by decide) (by decide)
  exact ⟨(h.1 (.ok sampleUser) (.error { detail := none })).1,
    (h.2.1 sampleUser (.error { detail := none })).1,
    (h.2.2 { detail := none } (.error { detail := none })).1⟩

/-- Claim C4: a backend response with status 401 makes the shared client
redirect to the public entry view unless the current location already is
that view, and the hard navigation discards the in-memory session, leaving
no identity; non-401 outcomes trigger no redirect. -/
theorem unauthorized_401_rule (p : String) (st : AuthState) (status : Option Nat) :
    (p ≠ "/" → responseErrorInterceptor (some 401) p = some "/") ∧
    responseErrorInterceptor (some 401) "/" = none ∧
    (status ≠ some 401 → responseErrorInterceptor status p = none) ∧
    (p ≠ "/" →
      (followRedirect (responseErrorInterceptor (some 401) p) st).user = none) := by
  refine ⟨?_, rfl, ?_, ?_⟩
  · intro hp
    simp [responseErrorInterceptor, hp]
  · intro hst
    simp [responseErrorInterceptor, hst]
  · intro hp
    simp [responseErrorInterceptor, followRedirect, initialAuthState, hp]

theorem unauthorized_401_rule_witness :
    responseErrorInterceptor (some 401) "/dashboard" = some "/" ∧
    responseErrorInterceptor (some 500) "/dashboard" = none ∧
    (followRedirect (responseErrorInterceptor (some 401) "/dashboard")
      { user := some sampleUser, loading := false }).user = none := by
  have h := unauthorized_401_rule "/dashboard"
    { user := some sampleUser, loading := false } (some 500)
  exact ⟨h.1 (by decide), h.2.2.1 (by decide), h.2.2.2 (by decide)⟩

/-- Claim C7: while the session controller is loading, every protected
route renders only the loading indicator — never its content and never a
redirect; a redirect to the public entry view happens only once loading has
finished with no authenticated user; and every protected route in the App
route table goes through the one shared guard. -/
theorem loading_gate_blocks_render :
    (∀ u : Option Identity, protectedRoute true u = RenderResult.loadingView) ∧
    (∀ (l : Bool) (u : Option Identity) (t : String),
       protectedRoute l u = RenderResult.redirect t →
       l = false ∧ u = none ∧ t = "/") ∧
    (∀ r ∈ appRoutes, r.isGuarded = true →
       ∀ u : Option Identity, renderRoute r true u = RenderResult.loadingView) := by
  refine ⟨fun u => rfl, ?_, ?_⟩
  · intro l u t hr
    cases l
    · cases u with
      | none =>
        simp only [protectedRoute, if_false, Bool.false_eq_true] at hr
        cases hr
        exact ⟨rfl, rfl, rfl⟩
      | some v => simp [protectedRoute] at hr
    · simp [protectedRoute] at hr
  · intro r _ hg u
    simp [renderRoute, hg, protectedRoute]

theorem loading_gate_blocks_render_witness :
    protectedRoute true (some sampleUser) = RenderResult.loadingView ∧
    (false = false ∧ (none : Option Identity) = none ∧ "/" = "/") ∧
    renderRoute { path := "/dashboard", isGuarded := true } true none
      = RenderResult.loadingView := by
  have h := loading_gate_blocks_render
  exact ⟨h.1 (some sampleUser), h.2.1 false none "/" (by decide),
    h.2.2 { path := "/dashboard", isGuarded := true } (by decide) rfl none⟩

end FounderPath
